import Mathlib

/-!
Verification development for the scrape_benchmark repository
(src/scrape_benchmark.py).

The Python source is shallowly embedded below.  Conventions used by the
embedding:

* Python float arithmetic is idealized over the rationals.  The value
  math.cos(math.radians(center_lat)) is not computable over the rationals,
  so the cosine of the center latitude is passed to the embedded
  calculate_bounding_box as an explicit parameter.
* Python strings are Lean strings; helper functions mirror Python string
  semantics (truthiness, substring test via the in operator, lower, split,
  join) on the ASCII fragment the program manipulates.
* Loosely-typed JSON-ish values handled by extract_ratings_and_badges are
  embedded as the inductive type PyVal; code that can raise is embedded in
  the Except monad, an error value standing for a raised Python exception.
* The HTTP/JSON transport of search_listings is abstracted into a
  FetchResult per page: a transport exception, or a response carrying the
  status code, the presence of an errors key, the decoded searchResults
  list and the nextPageCursor.  The base64 step of the room-id decoding is
  abstracted: a raw entry carries the already base64-decoded value of
  demandStayListing.id as an Option String (none when the id is missing,
  empty, or its decoding failed); the colon-split step is embedded exactly.
-/

/-! ## Python-like string helpers -/

/-- Lowercase one ASCII character, as Python str.lower does on the ASCII
fragment used by the program. -/
def pyLowerChar (c : Char) : Char :=
  if 65 ≤ c.toNat && c.toNat ≤ 90 then Char.ofNat (c.toNat + 32) else c

/-- Lowercase a string (ASCII fragment of Python str.lower). -/
def lowerStr (s : String) : String :=
  String.mk (s.data.map pyLowerChar)

/-- Test whether the second list occurs at the head of the first. -/
def startsWithCL : List Char → List Char → Bool
  | _, [] => true
  | [], _ :: _ => false
  | c :: cs, d :: ds => c == d && startsWithCL cs ds

/-- Test whether needle occurs somewhere in hay (list form). -/
def containsCL : List Char → List Char → Bool
  | [], needle => needle.isEmpty
  | hay@(_ :: hs), needle => startsWithCL hay needle || containsCL hs needle

/-- Python needle in hay, on strings. -/
def strContains (hay needle : String) : Bool :=
  containsCL hay.data needle.data

/-- Split a character list at every occurrence of the separator character,
matching Python str.split with a one-character separator. -/
def splitOnCharCL (sep : Char) : List Char → List (List Char)
  | [] => [[]]
  | c :: cs =>
    let r := splitOnCharCL sep cs
    if c == sep then [] :: r
    else
      match r with
      | x :: xs => (c :: x) :: xs
      | [] => [[c]]

/-- Python decoded.split on a one-character separator, on strings. -/
def pySplitChar (sep : Char) (s : String) : List String :=
  (splitOnCharCL sep s.data).map String.mk

/-- Python sep.join of a list of strings. -/
def joinSep (sep : String) : List String → String
  | [] => ""
  | x :: xs => xs.foldl (fun acc y => acc ++ sep ++ y) x

/-! ## Rating-text decomposition (search_listings, regex on avgRatingLocalized)

The source applies re.match with pattern ([\d.]+)\s*\((\d+)\) and, failing
that, re.match with pattern ^[\d.]+$.  Both patterns are deterministic on
their alphabet (no backtracking can change the outcome, because the
characters accepted by the starred/plussed classes are disjoint from the
required following literals), so they are embedded as straight-line
parsers. -/

/-- Character class [\d.] of the rating regex (ASCII digits and the dot). -/
def isDigitDot (c : Char) : Bool :=
  c.isDigit || c == '.'

/-- Character class \s of Python re (ASCII fragment). -/
def isPySpace (c : Char) : Bool :=
  c == ' ' || c == '\t' || c == '\n' || c == '\r' || c == '\x0b' || c == '\x0c'

/-- Embedded re.match of the pattern ([\d.]+)\s*\((\d+)\): on success,
returns the two capture groups. -/
def ratingMatch (s : String) : Option (String × String) :=
  let g1 := s.data.takeWhile isDigitDot
  let rest1 := s.data.dropWhile isDigitDot
  if g1.isEmpty then none
  else
    let rest2 := rest1.dropWhile isPySpace
    match rest2 with
    | '(' :: rest3 =>
      let g2 := rest3.takeWhile Char.isDigit
      let rest4 := rest3.dropWhile Char.isDigit
      if g2.isEmpty then none
      else
        match rest4 with
        | ')' :: _ => some (String.mk g1, String.mk g2)
        | _ => none
    | _ => none

/-- Embedded re.match of the pattern ^[\d.]+$.  Python $ also matches just
before one trailing newline, which is reproduced here. -/
def bareRatingMatch (s : String) : Bool :=
  let t := if s.data.getLastD ' ' == '\n' then s.data.dropLast else s.data
  !t.isEmpty && t.all isDigitDot

/-- Rating-text decomposition performed inline in search_listings: given
the avgRatingLocalized text, produce the pair (avg_rating, reviews_count).
An empty rating text is falsy in Python and skips the whole block. -/
def decomposeRating (s : String) : String × String :=
  if s == "" then ("", "")
  else
    match ratingMatch s with
    | some (a, b) => (a, b)
    | none => if bareRatingMatch s then (s, "") else ("", "")

/-! ## Geo/window calculator -/

/-- Bounding box returned by calculate_bounding_box. -/
structure BBox where
  ne_lat : ℚ
  ne_lng : ℚ
  sw_lat : ℚ
  sw_lng : ℚ
deriving DecidableEq

/-- Latitude offset computed by calculate_bounding_box. -/
def lat_offset_of (radius_km : ℚ) : ℚ :=
  radius_km / 111

/-- Longitude offset computed by calculate_bounding_box; cosCenterLat is
the value of math.cos(math.radians(center_lat)). -/
def lng_offset_of (cosCenterLat radius_km : ℚ) : ℚ :=
  radius_km / (111 * cosCenterLat)

/-- Embedded calculate_bounding_box.  The cosine of the center latitude is
passed explicitly (see the header note); float arithmetic is idealized
over the rationals. -/
def calculate_bounding_box (cosCenterLat center_lat center_lng radius_km : ℚ) : BBox :=
  let lat_offset := lat_offset_of radius_km
  let lng_offset := lng_offset_of cosCenterLat radius_km
  { ne_lat := center_lat + lat_offset
    ne_lng := center_lng + lng_offset
    sw_lat := center_lat - lat_offset
    sw_lng := center_lng - lng_offset }

/-- Embedded calculate_zoom_from_radius. -/
def calculate_zoom_from_radius (radius_km : ℚ) : Nat :=
  if radius_km ≤ 1/2 then 16
  else if radius_km ≤ 1 then 15
  else if radius_km ≤ 2 then 14
  else if radius_km ≤ 5 then 13
  else if radius_km ≤ 10 then 12
  else 11

/-! ## Loosely-typed Python values -/

/-- Python values reachable from the loosely-typed detail blob: None,
booleans, integers, strings, lists, dictionaries with string keys.  The
program calls str() on scalar values only; the str() rendering of
containers is abstracted (never exercised by the claims). -/
inductive PyVal where
  | none : PyVal
  | bool : Bool → PyVal
  | int : Int → PyVal
  | str : String → PyVal
  | list : List PyVal → PyVal
  | dict : List (String × PyVal) → PyVal

/-- Python dict lookup on the association-list embedding of a dict. -/
def dictGet (kvs : List (String × PyVal)) (k : String) : Option PyVal :=
  match kvs with
  | [] => Option.none
  | (k', v) :: rest => if k' == k then some v else dictGet rest k

/-- Python dict.get with a default value. -/
def dictGetD (kvs : List (String × PyVal)) (k : String) (d : PyVal) : PyVal :=
  (dictGet kvs k).getD d

/-- Python truthiness of an embedded value. -/
def pyTruthy : PyVal → Bool
  | PyVal.none => false
  | PyVal.bool b => b
  | PyVal.int n => n != 0
  | PyVal.str s => s != ""
  | PyVal.list xs => !xs.isEmpty
  | PyVal.dict kvs => !kvs.isEmpty

/-- Python str() on the values the program converts (scalars); the
rendering of containers is abstracted. -/
def pyStr : PyVal → String
  | PyVal.none => "None"
  | PyVal.bool true => "True"
  | PyVal.bool false => "False"
  | PyVal.int n => toString n
  | PyVal.str s => s
  | PyVal.list _ => "<list>"
  | PyVal.dict _ => "<dict>"

/-- Python is-not-None guarded assignment: the result field receives
str(v) when v is not None, and keeps its current value otherwise. -/
def strIfNotNone (v : PyVal) (cur : String) : String :=
  match v with
  | PyVal.none => cur
  | v => pyStr v

/-! ## extract_ratings_and_badges -/

/-- Record built by extract_ratings_and_badges (the Python result dict);
every field is initialized exactly as in the source. -/
structure RatingRecord where
  rating_overall : String := ""
  rating_accuracy : String := ""
  rating_cleanliness : String := ""
  rating_checkin : String := ""
  rating_communication : String := ""
  rating_location : String := ""
  rating_value : String := ""
  reviews_count : String := ""
  host_id : String := ""
  host_name : String := ""
  is_superhost : Bool := false
  is_guest_favorite : Bool := false
  top_percent : String := ""
  badges : String := ""
deriving DecidableEq

/-- Ratings section of extract_ratings_and_badges: runs only when
details.get("rating") is truthy and a dict; each sub-rating is copied via
str() when it is not None.  The check-in sub-rating is read from the key
"checking", as in the source. -/
def extractRatingSection (kvs : List (String × PyVal)) (r : RatingRecord) : RatingRecord :=
  match dictGetD kvs "rating" PyVal.none with
  | PyVal.dict rkvs =>
    if rkvs.isEmpty then r
    else
      { r with
        rating_accuracy := strIfNotNone (dictGetD rkvs "accuracy" PyVal.none) r.rating_accuracy
        rating_cleanliness := strIfNotNone (dictGetD rkvs "cleanliness" PyVal.none) r.rating_cleanliness
        rating_checkin := strIfNotNone (dictGetD rkvs "checking" PyVal.none) r.rating_checkin
        rating_communication := strIfNotNone (dictGetD rkvs "communication" PyVal.none) r.rating_communication
        rating_location := strIfNotNone (dictGetD rkvs "location" PyVal.none) r.rating_location
        rating_value := strIfNotNone (dictGetD rkvs "value" PyVal.none) r.rating_value
        rating_overall := strIfNotNone (dictGetD rkvs "guest_satisfaction" PyVal.none) r.rating_overall
        reviews_count := strIfNotNone (dictGetD rkvs "review_count" PyVal.none) r.reviews_count }
  | _ => r

/-- Host section of extract_ratings_and_badges. -/
def extractHostSection (kvs : List (String × PyVal)) (r : RatingRecord) : RatingRecord :=
  match dictGetD kvs "host" PyVal.none with
  | PyVal.dict hkvs =>
    if hkvs.isEmpty then r
    else
      { r with
        host_id := strIfNotNone (dictGetD hkvs "id" PyVal.none) r.host_id
        host_name := strIfNotNone (dictGetD hkvs "name" PyVal.none) r.host_name }
  | _ => r

/-- Superhost flag: details.get("is_super_host"), bool() conversion when
not None. -/
def applySuperhost (kvs : List (String × PyVal)) (r : RatingRecord) : RatingRecord :=
  match dictGetD kvs "is_super_host" PyVal.none with
  | PyVal.none => r
  | v => { r with is_superhost := pyTruthy v }

/-- Guest-favorite flag: details.get("is_guest_favorite"), bool()
conversion when not None. -/
def applyGuestFavorite (kvs : List (String × PyVal)) (r : RatingRecord) : RatingRecord :=
  match dictGetD kvs "is_guest_favorite" PyVal.none with
  | PyVal.none => r
  | v => { r with is_guest_favorite := pyTruthy v }

/-- Keyword set gating which highlight titles become badges. -/
def badgeKeywords : List String :=
  ["superhost", "top", "favorite", "loved"]

/-- Body of the highlight loop of extract_ratings_and_badges.  The state
is (top_percent, badges_list).  A truthy title that is not a string makes
title.lower() raise AttributeError, embedded as an error value. -/
def processHighlight (st : String × List String) : PyVal → Except String (String × List String)
  | PyVal.dict hkvs =>
    let title := dictGetD hkvs "title" (PyVal.str "")
    let subtitle := dictGetD hkvs "subtitle" (PyVal.str "")
    let combined := lowerStr (pyStr title ++ " " ++ pyStr subtitle)
    let tp :=
      if strContains combined "top 1%" then "1"
      else if strContains combined "top 5%" then "5"
      else if strContains combined "top 10%" then "10"
      else st.1
    if pyTruthy title then
      match title with
      | PyVal.str s =>
        if badgeKeywords.any (fun k => strContains (lowerStr s) k) then
          Except.ok (tp, st.2 ++ [s])
        else Except.ok (tp, st.2)
      | _ => Except.error "AttributeError: lower"
    else Except.ok (tp, st.2)
  | _ => Except.ok st

/-- Badge de-duplication loop: a candidate badge is appended only when it
is not a case-insensitive substring match (in either direction) of a badge
already in the list, which keeps growing as candidates are appended. -/
def dedupBadges (initial : List String) (candidates : List String) : List String :=
  candidates.foldl
    (fun acc badge =>
      if acc.any (fun ex =>
          strContains (lowerStr badge) (lowerStr ex) ||
          strContains (lowerStr ex) (lowerStr badge)) then acc
      else acc ++ [badge])
    initial

/-- Embedded extract_ratings_and_badges.  A falsy input returns the
all-empty record; a truthy non-dict input makes the first attribute access
details.get raise, embedded as an error value; a raised AttributeError
from the highlight loop propagates. -/
def extract_ratings_and_badges (details : PyVal) : Except String RatingRecord :=
  if !pyTruthy details then Except.ok {} else
  match details with
  | PyVal.dict kvs =>
    let r := extractRatingSection kvs {}
    let r := extractHostSection kvs r
    let r := applySuperhost kvs r
    let r := applyGuestFavorite kvs r
    let folded : Except String (String × List String) :=
      match dictGetD kvs "highlights" (PyVal.list []) with
      | PyVal.list hs => hs.foldlM processHighlight ("", [])
      | _ => Except.ok ("", [])
    match folded with
    | Except.error e => Except.error e
    | Except.ok (tp, bl) =>
      let finalBadges :=
        dedupBadges
          ((if r.is_superhost then ["Superhost"] else []) ++
           (if r.is_guest_favorite then ["Guest Favorite"] else []) ++
           (if tp != "" then ["Top " ++ tp ++ "%"] else []))
          bl
      Except.ok { r with top_percent := tp, badges := joinSep " | " finalBadges }
  | _ => Except.error "AttributeError: get"

/-- Embedded get_listing_details: the pyairbnb call outcome is passed in;
any raised exception is caught and turned into None. -/
def get_listing_details (outcome : Except String PyVal) : Option PyVal :=
  match outcome with
  | Except.ok v => some v
  | Except.error _ => Option.none

/-! ## Search filters and build_raw_params -/

/-- Filter dictionary assembled in main: every key is optional, and main
inserts adults, min_bedrooms and max_bedrooms as ints parsed from the
environment (so the value 0 is possible), room_type and query as strings,
and guest_favorite and luxe only ever as True (absence embedded as
false). -/
structure Filters where
  adults : Option Int := Option.none
  room_type : Option String := Option.none
  min_bedrooms : Option Int := Option.none
  max_bedrooms : Option Int := Option.none
  guest_favorite : Bool := false
  luxe : Bool := false
  query : Option String := Option.none

/-- Python truthiness of filters.get(k) for an int-valued key. -/
def optIntTruthy : Option Int → Bool
  | some n => n != 0
  | Option.none => false

/-- Python truthiness of filters.get(k) for a string-valued key. -/
def optStrTruthy : Option String → Bool
  | some s => s != ""
  | Option.none => false

/-- One rawParams entry: filterName paired with filterValues. -/
abbrev Param := String × List String

/-- Rendering of a rational to a string where the source renders a float;
the exact float formatting is abstracted by the rational rendering. -/
def ratStr (q : ℚ) : String :=
  toString q

/-- Fixed leading rawParams entries of build_raw_params. -/
def baseParams (check_in check_out : String) : List Param :=
  [("cdnCacheSafe", ["false"]),
   ("channel", ["EXPLORE"]),
   ("checkin", [check_in]),
   ("checkout", [check_out]),
   ("datePickerType", ["calendar"]),
   ("flexibleTripLengths", ["one_week"]),
   ("itemsPerGrid", ["50"]),
   ("refinementPaths", ["/homes"]),
   ("screenSize", ["large"]),
   ("searchMode", ["regular_search"]),
   ("tabId", ["home_tab"]),
   ("version", ["1.8.3"])]

/-- Bounding-box rawParams entries of build_raw_params. -/
def bboxParams (b : BBox) : List Param :=
  [("neLat", [ratStr b.ne_lat]),
   ("neLng", [ratStr b.ne_lng]),
   ("swLat", [ratStr b.sw_lat]),
   ("swLng", [ratStr b.sw_lng]),
   ("searchByMap", ["true"])]

/-- Adults entry: emitted only when filters.get("adults") is truthy. -/
def adultsParams (f : Filters) : List Param :=
  match f.adults with
  | some n => if n != 0 then [("adults", [toString n])] else []
  | Option.none => []

/-- Room-type translation table of build_raw_params. -/
def roomTypeMap (s : String) : Option String :=
  if s == "entire_home" then some "Entire home/apt"
  else if s == "private_room" then some "Private room"
  else if s == "shared_room" then some "Shared room"
  else Option.none

/-- Room-type entry: emitted when filters.get("room_type") is truthy and
the value is a key of the translation table. -/
def roomTypeParams (f : Filters) : List Param :=
  match f.room_type with
  | some s =>
    if s != "" then
      match roomTypeMap s with
      | some v => [("roomTypes", [v])]
      | Option.none => []
    else []
  | Option.none => []

/-- Min-bedrooms entry: emitted only when truthy. -/
def minBedroomsParams (f : Filters) : List Param :=
  match f.min_bedrooms with
  | some n => if n != 0 then [("minBedrooms", [toString n])] else []
  | Option.none => []

/-- Max-bedrooms entry: emitted only when truthy. -/
def maxBedroomsParams (f : Filters) : List Param :=
  match f.max_bedrooms with
  | some n => if n != 0 then [("maxBedrooms", [toString n])] else []
  | Option.none => []

/-- Guest-favorite entries: the native filter plus its selectedFilterOrder
companion. -/
def guestFavoriteParams (f : Filters) : List Param :=
  if f.guest_favorite then
    [("guestFavorite", ["true"]), ("selectedFilterOrder", ["guest_favorite:true"])]
  else []

/-- Luxe entries. -/
def luxeParams (f : Filters) : List Param :=
  if f.luxe then
    [("luxe", ["true"]), ("selectedFilterOrder", ["luxe:true"])]
  else []

/-- Cursor entry: emitted only when the cursor is truthy. -/
def cursorParams (c : Option String) : List Param :=
  match c with
  | some s => if s != "" then [("cursor", [s])] else []
  | Option.none => []

/-- Embedded build_raw_params: the rawParams list in source order.  The
free-text query key of the filter dict is never read by the source
function, which the embedding mirrors by not reading the query field. -/
def build_raw_params (check_in check_out : String) (bounds : BBox) (filters : Filters)
    (cursor : Option String) : List Param :=
  baseParams check_in check_out ++ bboxParams bounds ++
  adultsParams filters ++ roomTypeParams filters ++
  minBedroomsParams filters ++ maxBedroomsParams filters ++
  guestFavoriteParams filters ++ luxeParams filters ++
  cursorParams cursor

/-! ## search_listings -/

/-- One summary record appended by search_listings (the page_listings
dict). -/
structure Listing where
  room_id : String
  name : String
  room_type : String
  person_capacity : String
  bedrooms : String
  beds : String
  bathrooms : String
  price : Option String
  avg_rating : String
  reviews_count : String
  is_guest_favorite_search : Bool
deriving DecidableEq

/-- The primaryLine node of structuredDisplayPrice. -/
structure PrimaryLine where
  discountedPrice : Option String := Option.none
  price : Option String := Option.none
deriving DecidableEq

/-- One entry of searchResults.  dslIdDecoded is the base64-decoded value
of demandStayListing.id (none when the id is missing, empty, or the
decoding raised); badgeTypes lists loggingContext.badgeType of each badge
(none when the key is missing). -/
structure RawResult where
  dslIdDecoded : Option String := Option.none
  title : String := ""
  subtitle : String := ""
  structuredDisplayPrice : Option PrimaryLine := Option.none
  avgRatingLocalized : String := ""
  badgeTypes : List (Option String) := []

/-- Python a or b on optional strings (None and the empty string are
falsy). -/
def pyOrOptStr (a b : Option String) : Option String :=
  if optStrTruthy a then a else b

/-- Python a or b on strings. -/
def pyOrStr (a b : String) : String :=
  if a != "" then a else b

/-- Room-id derivation: the decoded id is split at the colon and the
second segment is taken; entries without a colon (or without a decodable
id) are skipped. -/
def deriveRoomId (decoded : Option String) : Option String :=
  match decoded with
  | Option.none => Option.none
  | some d =>
    if strContains d ":" then some ((pySplitChar ':' d).getD 1 "")
    else Option.none

/-- Summary record built from one raw entry given its derived room id. -/
def buildListing (rid : String) (r : RawResult) : Listing :=
  let price :=
    match r.structuredDisplayPrice with
    | some pl => pyOrOptStr pl.discountedPrice pl.price
    | Option.none => Option.none
  let rating := decomposeRating r.avgRatingLocalized
  { room_id := rid
    name := pyOrStr r.title r.subtitle
    room_type := ""
    person_capacity := ""
    bedrooms := ""
    beds := ""
    bathrooms := ""
    price := price
    avg_rating := rating.1
    reviews_count := rating.2
    is_guest_favorite_search := r.badgeTypes.any (fun b => b == some "GUEST_FAVORITE") }

/-- Per-page extraction loop of search_listings: entries without a
derivable id are skipped, and an entry whose id already occurs in
all_listings (the accumulation of the previous pages only) is skipped;
page_listings grows by appending. -/
def pageKeptAux (allL : List Listing) (pageL : List Listing) : List RawResult → List Listing
  | [] => pageL
  | r :: rs =>
    match deriveRoomId r.dslIdDecoded with
    | Option.none => pageKeptAux allL pageL rs
    | some rid =>
      if allL.any (fun l => l.room_id == rid) then pageKeptAux allL pageL rs
      else pageKeptAux allL (pageL ++ [buildListing rid r]) rs

/-- Listings kept from one page against the accumulated previous pages. -/
def pageKept (allL : List Listing) (rs : List RawResult) : List Listing :=
  pageKeptAux allL [] rs

/-- Outcome of one page request, abstracting the HTTP/JSON transport: a
transport exception, or a response with its status code, the presence of
a GraphQL errors key, the searchResults entries and the nextPageCursor. -/
inductive FetchResult where
  | exn : FetchResult
  | resp : Nat → Bool → List RawResult → Option String → FetchResult

/-- Python truthiness filter on the pagination cursor: a missing or empty
cursor stops the loop. -/
def truthyCursor : Option String → Option String
  | Option.none => Option.none
  | some s => if s == "" then Option.none else some s

/-- Pagination loop of search_listings.  The server argument gives the
outcome of the request for each page number (pages are requested in
order); fuel is the number of loop iterations still allowed by the
max_pages cap, and the second component of the result mirrors the
page_count counter.  A transport exception is caught and the accumulated
listings are returned. -/
def searchAux (server : Nat → FetchResult) (acc : List Listing) (page fuel : Nat) :
    List Listing × Nat :=
  match fuel with
  | 0 => (acc, page)
  | fuel + 1 =>
    match server (page + 1) with
    | FetchResult.exn => (acc, page + 1)
    | FetchResult.resp status hasErrors results cur =>
      if status ≠ 200 then (acc, page + 1)
      else if hasErrors then (acc, page + 1)
      else
        let kept := pageKept acc results
        if kept = [] then (acc ++ kept, page + 1)
        else
          match truthyCursor cur with
          | Option.none => (acc ++ kept, page + 1)
          | some _ => searchAux server (acc ++ kept) (page + 1) fuel

/-- Embedded search_listings: starts with an empty accumulator, page_count
zero and the max_pages cap of 20; returns the listings together with the
final page_count. -/
def search_listings (server : Nat → FetchResult) : List Listing × Nat :=
  searchAux server [] 0 20

/-- Per-page contributions of the pagination loop: the list of kept-lists,
one per processed page that contributed its page_listings to
all_listings. -/
def searchChunksAux (server : Nat → FetchResult) (acc : List Listing) (page fuel : Nat) :
    List (List Listing) :=
  match fuel with
  | 0 => []
  | fuel + 1 =>
    match server (page + 1) with
    | FetchResult.exn => []
    | FetchResult.resp status hasErrors results cur =>
      if status ≠ 200 then []
      else if hasErrors then []
      else
        let kept := pageKept acc results
        if kept = [] then [kept]
        else
          match truthyCursor cur with
          | Option.none => [kept]
          | some _ => kept :: searchChunksAux server (acc ++ kept) (page + 1) fuel

/-- Per-page contributions of search_listings. -/
def searchChunks (server : Nat → FetchResult) : List (List Listing) :=
  searchChunksAux server [] 0 20

/-! ## Enrichment merge (main, phase 2) -/

/-- Listing dict after main executes listing.update(ratings): the summary
keys, plus every key of the rating record.  reviews_count occurs in both
dicts, so update overwrites it with the value from the rating record. -/
structure Enriched where
  room_id : String
  name : String
  room_type : String
  person_capacity : String
  bedrooms : String
  beds : String
  bathrooms : String
  price : Option String
  avg_rating : String
  is_guest_favorite_search : Bool
  rating_overall : String
  rating_accuracy : String
  rating_cleanliness : String
  rating_checkin : String
  rating_communication : String
  rating_location : String
  rating_value : String
  reviews_count : String
  host_id : String
  host_name : String
  is_superhost : Bool
  is_guest_favorite : Bool
  top_percent : String
  badges : String
deriving DecidableEq

/-- Embedded listing.update(ratings): the rating record carries every one
of its keys, so each shared key (reviews_count) takes the value from the
rating record, while keys only in the summary keep their values. -/
def updateListing (l : Listing) (r : RatingRecord) : Enriched :=
  { room_id := l.room_id
    name := l.name
    room_type := l.room_type
    person_capacity := l.person_capacity
    bedrooms := l.bedrooms
    beds := l.beds
    bathrooms := l.bathrooms
    price := l.price
    avg_rating := l.avg_rating
    is_guest_favorite_search := l.is_guest_favorite_search
    rating_overall := r.rating_overall
    rating_accuracy := r.rating_accuracy
    rating_cleanliness := r.rating_cleanliness
    rating_checkin := r.rating_checkin
    rating_communication := r.rating_communication
    rating_location := r.rating_location
    rating_value := r.rating_value
    reviews_count := r.reviews_count
    host_id := r.host_id
    host_name := r.host_name
    is_superhost := r.is_superhost
    is_guest_favorite := r.is_guest_favorite
    top_percent := r.top_percent
    badges := r.badges }

/-- Listing dict that was never updated, as read back by the CSV export
(missing keys are read with empty-string and False defaults). -/
def plainEnriched (l : Listing) : Enriched :=
  updateListing l {}

/-- Per-listing body of the enrichment loop of main: a failed fetch gives
no details, a falsy detail blob counts as an error, a raised extraction
error is caught by the surrounding try/except; in every failure case the
listing row survives unenriched and the loop moves on.  The Bool marks
the success counter. -/
def enrichOne (outcome : Except String PyVal) (l : Listing) : Enriched × Bool :=
  match get_listing_details outcome with
  | some d =>
    if pyTruthy d then
      match extract_ratings_and_badges d with
      | Except.ok r => (updateListing l r, true)
      | Except.error _ => (plainEnriched l, false)
    else (plainEnriched l, false)
  | Option.none => (plainEnriched l, false)

/-- Enrichment phase of main over the whole summary list: one output row
per input listing, plus the success and error counters. -/
def enrichAll (fetch : String → Except String PyVal) (ls : List Listing) :
    List Enriched × Nat × Nat :=
  let rows := ls.map (fun l => enrichOne (fetch l.room_id) l)
  (rows.map Prod.fst,
   (rows.filter (fun p => p.2)).length,
   (rows.filter (fun p => !p.2)).length)

/-! ## Predicates and concrete inputs used by the claims -/

/-- A highlight title is harmless for the badge loop when it is falsy
(short-circuited before title.lower()) or a string. -/
def titleOk (t : PyVal) : Bool :=
  !pyTruthy t ||
    (match t with
     | PyVal.str _ => true
     | _ => false)

/-- A highlight entry is harmless when it is not a dict (skipped) or its
title is harmless. -/
def highlightOk (h : PyVal) : Bool :=
  match h with
  | PyVal.dict hkvs => titleOk (dictGetD hkvs "title" (PyVal.str ""))
  | _ => true

/-- A detail dict is safe for extract_ratings_and_badges when every entry
of its highlights list (when it is a list) is harmless. -/
def titlesSafe (kvs : List (String × PyVal)) : Bool :=
  match dictGetD kvs "highlights" (PyVal.list []) with
  | PyVal.list hs => hs.all highlightOk
  | _ => true

/-- Chunk-list invariant of the pagination loop: each chunk avoids every
room id accumulated before it, the accumulator growing chunk by chunk. -/
def ChunksOK : List Listing → List (List Listing) → Prop
  | _, [] => True
  | acc, c :: cs =>
    (∀ l ∈ c, ∀ l' ∈ acc, l.room_id ≠ l'.room_id) ∧ ChunksOK (acc ++ c) cs

/-- Server whose single page carries two raw entries decoding to the same
room id (a within-page duplicate). -/
def dupPageServer : Nat → FetchResult := fun _ =>
  FetchResult.resp 200 false
    [{ dslIdDecoded := some "DemandStayListing:77", title := "A" },
     { dslIdDecoded := some "DemandStayListing:77", title := "B" }]
    Option.none

/-- Detail blob for the badge-assembly scenario: superhost, guest
favorite, a top-5-percent highlight and a superhost-attributing highlight
sentence. -/
def detailsSuperhostMaria : PyVal :=
  PyVal.dict
    [("is_super_host", PyVal.bool true),
     ("is_guest_favorite", PyVal.bool true),
     ("highlights", PyVal.list
       [PyVal.dict [("title", PyVal.str "Top 5% of homes"), ("subtitle", PyVal.str "Based on ratings")],
        PyVal.dict [("title", PyVal.str "Maria is a Superhost"), ("subtitle", PyVal.str "")]])]

/-- Detail blob whose highlights list contains a truthy non-string title:
title.lower() raises on it. -/
def detailWithNonStringTitle : PyVal :=
  PyVal.dict [("highlights", PyVal.list [PyVal.dict [("title", PyVal.int 1)]])]

/-- Present, truthy detail blob carrying a host name but no rating node:
the extracted record has an empty reviews_count. -/
def detailWithoutReviewCount : PyVal :=
  PyVal.dict [("host", PyVal.dict [("name", PyVal.str "Sam")])]

/-- Summary record as produced by the search phase from the rating text
4.98 (42): its provisional reviews_count is 42. -/
def summaryProvisional : Listing :=
  { room_id := "101", name := "Loft", room_type := "", person_capacity := "",
    bedrooms := "", beds := "", bathrooms := "", price := some "100",
    avg_rating := "4.98", reviews_count := "42", is_guest_favorite_search := false }

/-! ## Claim theorems -/

/-- C5: with superhost and guest-favorite flags set, a top-5-percent
highlight and a highlight titled Maria is a Superhost, the extracted
badge list is exactly Superhost, Guest Favorite, Top 5% in that order
(joined with the pipe separator as in the source), both extra highlight
titles being suppressed as case-insensitive substring near-duplicates. -/
theorem C5_badge_assembly :
    extract_ratings_and_badges detailsSuperhostMaria =
      Except.ok { is_superhost := true, is_guest_favorite := true, top_percent := "5",
                  badges := "Superhost | Guest Favorite | Top 5%" } := rfl

/-- C6: the rating text 4.98 (42) decomposes into rating 4.98 and review
count 42; the text 5.0 gives rating 5.0 and an empty review count; any
text matching neither regex pattern gives both fields empty (and the
embedded decomposition is a total function, so no failure is raised). -/
theorem C6_rating_decomposition :
    decomposeRating "4.98 (42)" = ("4.98", "42") ∧
    decomposeRating "5.0" = ("5.0", "") ∧
    ∀ s : String, ratingMatch s = Option.none → bareRatingMatch s = false →
      decomposeRating s = ("", "") := by
  refine ⟨rfl, rfl, ?_⟩
  intro s h1 h2
  simp [decomposeRating, h1, h2]

/-- C6 witness: a concrete text matching neither pattern decomposes to
the all-empty pair. -/
theorem C6_rating_decomposition_witness :
    decomposeRating "not a rating" = ("", "") :=
  C6_rating_decomposition.2.2 "not a rating" rfl rfl

/-- C7 counterexample: at center latitude 180 the cosine of the latitude
is exactly -1, and the longitude offset turns negative, so the NE corner
does not dominate the SW corner: the claim fails for that center even
with a positive radius. -/
theorem C7_counterexample :
    (calculate_bounding_box (-1) 180 0 1).ne_lng <
      (calculate_bounding_box (-1) 180 0 1).sw_lng := by
  norm_num [calculate_bounding_box, lng_offset_of, lat_offset_of]

/-- C7 (amended): for every center whose latitude has a positive cosine
and every radius r greater than 0, the NE corner strictly dominates the
SW corner, and both offsets scale linearly in the radius: doubling the
radius doubles each offset. -/
theorem C7_bounding_box_dominates_and_linear :
    ∀ cosv lat lng r : ℚ, 0 < cosv → 0 < r →
      ((calculate_bounding_box cosv lat lng r).sw_lat <
         (calculate_bounding_box cosv lat lng r).ne_lat ∧
       (calculate_bounding_box cosv lat lng r).sw_lng <
         (calculate_bounding_box cosv lat lng r).ne_lng) ∧
      lat_offset_of (2 * r) = 2 * lat_offset_of r ∧
      lng_offset_of cosv (2 * r) = 2 * lng_offset_of cosv r := by
  intro cosv lat lng r hc hr
  refine ⟨⟨?_, ?_⟩, ?_, ?_⟩
  · have h0 : 0 < r / 111 := by positivity
    simp only [calculate_bounding_box, lat_offset_of]
    linarith
  · have h0 : 0 < r / (111 * cosv) := by positivity
    simp only [calculate_bounding_box, lng_offset_of]
    linarith
  · unfold lat_offset_of; ring
  · unfold lng_offset_of; ring

/-- C7 witness: the amended statement at cosine 1, center (0, 0) and
radius 1. -/
theorem C7_bounding_box_witness :
    ((calculate_bounding_box 1 0 0 1).sw_lat < (calculate_bounding_box 1 0 0 1).ne_lat ∧
     (calculate_bounding_box 1 0 0 1).sw_lng < (calculate_bounding_box 1 0 0 1).ne_lng) ∧
    lat_offset_of (2 * 1) = 2 * lat_offset_of 1 ∧
    lng_offset_of 1 (2 * 1) = 2 * lng_offset_of 1 1 :=
  C7_bounding_box_dominates_and_linear 1 0 0 1 (by decide) (by decide)

/-- C8: the zoom mapping agrees with the documented step table on every
breakpoint interval and is monotonically non-increasing in the radius. -/
theorem C8_zoom_table_and_monotone :
    (∀ r : ℚ, r ≤ 1/2 → calculate_zoom_from_radius r = 16) ∧
    (∀ r : ℚ, 1/2 < r → r ≤ 1 → calculate_zoom_from_radius r = 15) ∧
    (∀ r : ℚ, 1 < r → r ≤ 2 → calculate_zoom_from_radius r = 14) ∧
    (∀ r : ℚ, 2 < r → r ≤ 5 → calculate_zoom_from_radius r = 13) ∧
    (∀ r : ℚ, 5 < r → r ≤ 10 → calculate_zoom_from_radius r = 12) ∧
    (∀ r : ℚ, 10 < r → calculate_zoom_from_radius r = 11) ∧
    (∀ r1 r2 : ℚ, r1 ≤ r2 →
      calculate_zoom_from_radius r2 ≤ calculate_zoom_from_radius r1) := by
  refine ⟨?_, ?_, ?_, ?_, ?_, ?_, ?_⟩
  · intro r h; simp only [calculate_zoom_from_radius]
    split_ifs <;> first | rfl | linarith
  · intro r h1 h2; simp only [calculate_zoom_from_radius]
    split_ifs <;> first | rfl | linarith
  · intro r h1 h2; simp only [calculate_zoom_from_radius]
    split_ifs <;> first | rfl | linarith
  · intro r h1 h2; simp only [calculate_zoom_from_radius]
    split_ifs <;> first | rfl | linarith
  · intro r h1 h2; simp only [calculate_zoom_from_radius]
    split_ifs <;> first | rfl | linarith
  · intro r h; simp only [calculate_zoom_from_radius]
    split_ifs <;> first | rfl | linarith
  · intro r1 r2 h; simp only [calculate_zoom_from_radius]
    split_ifs <;> first | omega | linarith

/-- C8 witness: the last table row and monotonicity at concrete radii. -/
theorem C8_zoom_witness :
    calculate_zoom_from_radius 11 = 11 ∧
    calculate_zoom_from_radius 3 ≤ calculate_zoom_from_radius 1 :=
  ⟨C8_zoom_table_and_monotone.2.2.2.2.2.1 11 (by decide),
   C8_zoom_table_and_monotone.2.2.2.2.2.2 1 3 (by decide)⟩

/-- C10: a numeric filter present with value 0 is falsy in the truthiness
guard of build_raw_params, so it emits no parameter and the built request
body is identical to the body built with the filter absent. -/
theorem C10_zero_numeric_filter_like_absent :
    ∀ (ci co : String) (b : BBox) (f : Filters) (c : Option String),
      build_raw_params ci co b { f with adults := some 0 } c =
        build_raw_params ci co b { f with adults := Option.none } c ∧
      build_raw_params ci co b { f with min_bedrooms := some 0 } c =
        build_raw_params ci co b { f with min_bedrooms := Option.none } c ∧
      build_raw_params ci co b { f with max_bedrooms := some 0 } c =
        build_raw_params ci co b { f with max_bedrooms := Option.none } c := by
  intro ci co b f c
  refine ⟨?_, ?_, ?_⟩ <;>
    simp [build_raw_params, adultsParams, minBedroomsParams, maxBedroomsParams,
      roomTypeParams, guestFavoriteParams, luxeParams, cursorParams]

/-- C3 counterexample: a summary whose provisional reviews_count is 42,
merged with a present detail blob that carries no review count, ends with
an empty reviews_count: dict.update overwrites it because the extracted
record always carries the reviews_count key. -/
theorem C3_counterexample :
    summaryProvisional.reviews_count = "42" ∧
    (enrichOne (Except.ok detailWithoutReviewCount) summaryProvisional).2 = true ∧
    (enrichOne (Except.ok detailWithoutReviewCount) summaryProvisional).1.reviews_count = "" :=
  ⟨rfl, rfl, rfl⟩

/-- C3 (amended): in the merge, every summary field whose key is not
among the keys of the rating record (room id, title, room type, capacity,
bedrooms, beds, bathrooms, price, provisional rating, provisional
guest-favorite flag) keeps the summary value, but reviews_count, present
in both dicts, is unconditionally overwritten with the detail-derived
value, which is empty when the detail blob lacks a review count — the
provisional reviews_count from the search rating text is NOT retained. -/
theorem C3_merge_frame :
    ∀ (l : Listing) (r : RatingRecord),
      (updateListing l r).room_id = l.room_id ∧
      (updateListing l r).name = l.name ∧
      (updateListing l r).room_type = l.room_type ∧
      (updateListing l r).person_capacity = l.person_capacity ∧
      (updateListing l r).bedrooms = l.bedrooms ∧
      (updateListing l r).beds = l.beds ∧
      (updateListing l r).bathrooms = l.bathrooms ∧
      (updateListing l r).price = l.price ∧
      (updateListing l r).avg_rating = l.avg_rating ∧
      (updateListing l r).is_guest_favorite_search = l.is_guest_favorite_search ∧
      (updateListing l r).reviews_count = r.reviews_count :=
  fun _ _ => ⟨rfl, rfl, rfl, rfl, rfl, rfl, rfl, rfl, rfl, rfl, rfl⟩

/-- Page-count bound of the pagination loop: the final page_count never
exceeds the starting page_count plus the remaining fuel. -/
theorem searchAux_pages_le (server : Nat → FetchResult) :
    ∀ fuel acc page, (searchAux server acc page fuel).2 ≤ page + fuel := by
  intro fuel
  induction fuel with
  | zero => intro acc page; simp [searchAux]
  | succ n ih =>
    intro acc page
    unfold searchAux
    cases hs : server (page + 1) with
    | exn => simp
    | resp status hasErrors results cur =>
      dsimp only
      split_ifs with h200 herr hkept
      · simp
      · simp
      · simp
      · cases htc : truthyCursor cur with
        | none => simp
        | some s =>
          simp only []
          calc (searchAux server (acc ++ pageKept acc results) (page + 1) n).2
              ≤ (page + 1) + n := ih _ _
            _ ≤ page + (n + 1) := by omega

/-- C2: the pagination loop of search_listings terminates on every input:
page_count never exceeds the max_pages cap of 20, and one loop step stops
with the accumulated listings on a transport exception (caught, not
propagated), a non-200 status, a GraphQL error payload, an empty page, or
a missing/falsy nextPageCursor. -/
theorem C2_search_terminates :
    (∀ server, (search_listings server).2 ≤ 20) ∧
    (∀ server acc page fuel, server (page + 1) = FetchResult.exn →
      searchAux server acc page (fuel + 1) = (acc, page + 1)) ∧
    (∀ server acc page fuel status hasErrors results cur,
      server (page + 1) = FetchResult.resp status hasErrors results cur → status ≠ 200 →
      searchAux server acc page (fuel + 1) = (acc, page + 1)) ∧
    (∀ server acc page fuel results cur,
      server (page + 1) = FetchResult.resp 200 true results cur →
      searchAux server acc page (fuel + 1) = (acc, page + 1)) ∧
    (∀ server acc page fuel results cur,
      server (page + 1) = FetchResult.resp 200 false results cur →
      pageKept acc results = [] →
      searchAux server acc page (fuel + 1) = (acc, page + 1)) ∧
    (∀ server acc page fuel results cur,
      server (page + 1) = FetchResult.resp 200 false results cur →
      pageKept acc results ≠ [] → truthyCursor cur = Option.none →
      searchAux server acc page (fuel + 1) = (acc ++ pageKept acc results, page + 1)) := by
  refine ⟨?_, ?_, ?_, ?_, ?_, ?_⟩
  · intro server
    simpa using searchAux_pages_le server 20 [] 0
  · intro server acc page fuel h
    simp [searchAux, h]
  · intro server acc page fuel status hasErrors results cur h h200
    simp [searchAux, h, h200]
  · intro server acc page fuel results cur h
    simp [searchAux, h]
  · intro server acc page fuel results cur h hk
    simp [searchAux, h, hk]
  · intro server acc page fuel results cur h hk htc
    simp [searchAux, h, hk, htc]

/-- C2 witness: a server that raises a transport exception on the first
request makes search_listings return the empty accumulation after one
page. -/
theorem C2_search_terminates_witness :
    searchAux (fun _ => FetchResult.exn) [] 0 (19 + 1) = ([], 0 + 1) :=
  C2_search_terminates.2.1 (fun _ => FetchResult.exn) [] 0 19 rfl

/-- Invariant of the per-page loop: every record it emits whose room id
already avoided the accumulated listings keeps avoiding them, and every
newly appended record passed the membership check against them. -/
theorem pageKeptAux_fresh (allL : List Listing) :
    ∀ rs pageL,
      (∀ l ∈ pageL, ∀ l' ∈ allL, l.room_id ≠ l'.room_id) →
      ∀ l ∈ pageKeptAux allL pageL rs, ∀ l' ∈ allL, l.room_id ≠ l'.room_id := by
  intro rs
  induction rs with
  | nil => intro pageL h; simpa [pageKeptAux] using h
  | cons r rs ih =>
    intro pageL h
    unfold pageKeptAux
    cases hd : deriveRoomId r.dslIdDecoded with
    | none => exact ih pageL h
    | some rid =>
      by_cases ha : allL.any (fun l => l.room_id == rid)
      · simp only [ha, if_true]
        exact ih pageL h
      · simp only [ha, if_false, Bool.false_eq_true]
        apply ih
        intro l hl l' hl'
        rcases List.mem_append.1 hl with h1 | h2
        · exact h l h1 l' hl'
        · have hb : l = buildListing rid r := by simpa using h2
          subst hb
          intro heq
          apply ha
          refine List.any_eq_true.2 ⟨l', hl', ?_⟩
          have : (buildListing rid r).room_id = rid := rfl
          rw [this] at heq
          exact beq_iff_eq.2 heq.symm

/-- Every record kept from one page avoids every room id accumulated from
the previous pages. -/
theorem pageKept_fresh (allL : List Listing) (rs : List RawResult) :
    ∀ l ∈ pageKept allL rs, ∀ l' ∈ allL, l.room_id ≠ l'.room_id :=
  pageKeptAux_fresh allL rs [] (by simp)

/-- The chunk list produced by the pagination loop satisfies the chunk
invariant for its starting accumulator. -/
theorem searchChunksAux_ok (server : Nat → FetchResult) :
    ∀ fuel acc page, ChunksOK acc (searchChunksAux server acc page fuel) := by
  intro fuel
  induction fuel with
  | zero => intro acc page; simp [searchChunksAux, ChunksOK]
  | succ n ih =>
    intro acc page
    unfold searchChunksAux
    cases hs : server (page + 1) with
    | exn => simp [ChunksOK]
    | resp status hasErrors results cur =>
      dsimp only
      split_ifs with h200 herr hkept
      · simp [ChunksOK]
      · simp [ChunksOK]
      · exact ⟨pageKept_fresh acc results, trivial⟩
      · cases htc : truthyCursor cur with
        | none => exact ⟨pageKept_fresh acc results, trivial⟩
        | some s => exact ⟨pageKept_fresh acc results, ih _ _⟩

/-- The listings accumulated by the pagination loop are the starting
accumulator followed by the flattened per-page chunks. -/
theorem searchAux_eq_chunks (server : Nat → FetchResult) :
    ∀ fuel acc page,
      (searchAux server acc page fuel).1 =
        acc ++ (searchChunksAux server acc page fuel).flatten := by
  intro fuel
  induction fuel with
  | zero => intro acc page; simp [searchAux, searchChunksAux]
  | succ n ih =>
    intro acc page
    unfold searchAux searchChunksAux
    cases hs : server (page + 1) with
    | exn => simp
    | resp status hasErrors results cur =>
      dsimp only
      split_ifs with h200 herr hkept
      · simp
      · simp
      · simp [hkept]
      · cases htc : truthyCursor cur with
        | none => simp
        | some s =>
          simp only [List.flatten_cons, ← List.append_assoc]
          exact ih _ _

/-- The chunk invariant implies that every later chunk avoids a given
accumulator that the starting accumulator extends. -/
theorem chunksOK_avoid :
    ∀ (cs : List (List Listing)) (acc : List Listing), ChunksOK acc cs →
      ∀ c ∈ cs, ∀ l ∈ c, ∀ l' ∈ acc, l.room_id ≠ l'.room_id := by
  intro cs
  induction cs with
  | nil => intro acc _ c hc; simp at hc
  | cons c0 cs ih =>
    intro acc hok c hc l hl l' hl'
    rcases List.mem_cons.1 hc with rfl | hcs
    · exact hok.1 l hl l' hl'
    · exact ih (acc ++ c0) hok.2 c hcs l hl l' (List.mem_append_left _ hl')

/-- The chunk invariant implies pairwise room-id disjointness of the
chunks: a later chunk never repeats a room id of an earlier chunk. -/
theorem chunksOK_pairwise :
    ∀ (cs : List (List Listing)) (acc : List Listing), ChunksOK acc cs →
      cs.Pairwise (fun c c' => ∀ l ∈ c', ∀ l' ∈ c, l.room_id ≠ l'.room_id) := by
  intro cs
  induction cs with
  | nil => intro acc _; exact List.Pairwise.nil
  | cons c0 cs ih =>
    intro acc hok
    refine List.Pairwise.cons ?_ (ih (acc ++ c0) hok.2)
    intro c' hc' l hl l' hl'
    exact chunksOK_avoid cs (acc ++ c0) hok.2 c' hc' l hl l' (List.mem_append_right _ hl')

/-- C1 counterexample: a single page carrying two raw entries that decode
to the same room id yields two summary records with that room id — the
membership check only scans the accumulation of previous pages, so
within-page duplicates are not suppressed and the output can repeat a
room id. -/
theorem C1_counterexample :
    ((search_listings dupPageServer).1.map Listing.room_id) = ["77", "77"] ∧
    ¬ ((search_listings dupPageServer).1.map Listing.room_id).Nodup :=
  ⟨rfl, by decide⟩

/-- C1 (amended): the output of search_listings is the concatenation of
its per-page contributions, and these are pairwise disjoint on room id:
an id that already reached the output on an earlier page is suppressed on
every later page, so across pages the first-seen record is the one
retained.  Within one page, however, duplicates are not suppressed (see
the counterexample), so at-most-once uniqueness holds only across
pages. -/
theorem C1_dedup_across_pages :
    ∀ server : Nat → FetchResult,
      (search_listings server).1 = (searchChunks server).flatten ∧
      (searchChunks server).Pairwise
        (fun c c' => ∀ l ∈ c', ∀ l' ∈ c, l.room_id ≠ l'.room_id) := by
  intro server
  constructor
  · simpa [search_listings, searchChunks] using searchAux_eq_chunks server 20 [] 0
  · exact chunksOK_pairwise _ [] (searchChunksAux_ok server 20 [] 0)

/-- The highlight-loop body succeeds on every harmless highlight. -/
theorem processHighlight_isOk (st : String × List String) (h : PyVal)
    (hok : highlightOk h = true) :
    ∃ st', processHighlight st h = Except.ok st' := by
  cases h with
  | dict hkvs =>
    simp only [highlightOk] at hok
    simp only [processHighlight]
    cases htt : dictGetD hkvs "title" (PyVal.str "") with
    | str s =>
      by_cases ht : pyTruthy (PyVal.str s)
      · by_cases hkw : badgeKeywords.any (fun k => strContains (lowerStr s) k)
        · simp [ht, hkw]
        · simp [ht, hkw]
      · simp [ht]
    | none => simp [pyTruthy]
    | bool b =>
      rw [htt] at hok
      simp [titleOk, pyTruthy] at hok
      simp [pyTruthy, hok]
    | int n =>
      rw [htt] at hok
      simp [titleOk, pyTruthy] at hok
      simp [pyTruthy, hok]
    | list xs =>
      rw [htt] at hok
      simp [titleOk, pyTruthy] at hok
      simp [pyTruthy, hok]
    | dict kvs2 =>
      rw [htt] at hok
      simp [titleOk, pyTruthy] at hok
      simp [pyTruthy, hok]
  | none => exact ⟨st, rfl⟩
  | bool b => exact ⟨st, rfl⟩
  | int n => exact ⟨st, rfl⟩
  | str s => exact ⟨st, rfl⟩
  | list xs => exact ⟨st, rfl⟩

/-- The folded highlight loop succeeds when every highlight is
harmless. -/
theorem foldlM_highlights_isOk :
    ∀ (hs : List PyVal) (st : String × List String),
      (∀ h ∈ hs, highlightOk h = true) →
      ∃ st', hs.foldlM processHighlight st = Except.ok st' := by
  intro hs
  induction hs with
  | nil => intro st _; exact ⟨st, rfl⟩
  | cons h hs ih =>
    intro st hall
    obtain ⟨st1, h1⟩ := processHighlight_isOk st h (hall h (List.mem_cons_self h hs))
    obtain ⟨st2, h2⟩ := ih st1 (fun x hx => hall x (List.mem_cons_of_mem h hx))
    refine ⟨st2, ?_⟩
    rw [List.foldlM_cons, h1]
    exact h2

/-- C4 counterexample: a present detail dict whose highlights list holds
a truthy non-string title makes the embedded extract_ratings_and_badges
raise (title.lower() on an int), so the function is not total on detail
values of arbitrary shape. -/
theorem C4_counterexample :
    (extract_ratings_and_badges detailWithNonStringTitle).isOk = false := rfl

/-- C4 (amended): extract_ratings_and_badges returns the all-empty record
on an absent input; it returns without raising on every detail dict whose
highlight titles are harmless (truthy titles are strings) — but not on
arbitrary shapes, see the counterexample; a failing detail fetch is
caught by get_listing_details and yields an absent result; and the
enrichment loop emits one row per listing whatever the fetch outcomes,
so the run continues instead of aborting. -/
theorem C4_extract_total :
    extract_ratings_and_badges PyVal.none = Except.ok {} ∧
    (∀ kvs, titlesSafe kvs = true →
      ∃ r, extract_ratings_and_badges (PyVal.dict kvs) = Except.ok r) ∧
    (∀ e, get_listing_details (Except.error e) = Option.none) ∧
    (∀ fetch ls, (enrichAll fetch ls).1.length = ls.length) := by
  refine ⟨rfl, ?_, fun e => rfl, ?_⟩
  · intro kvs hsafe
    unfold extract_ratings_and_badges
    by_cases hkv : pyTruthy (PyVal.dict kvs)
    · simp only [hkv, Bool.not_true, if_false, Bool.false_eq_true]
      unfold titlesSafe at hsafe
      cases hh : dictGetD kvs "highlights" (PyVal.list []) with
      | list hs =>
        rw [hh] at hsafe
        obtain ⟨st', hst⟩ :=
          foldlM_highlights_isOk hs ("", []) (fun h hmem => List.all_eq_true.1 hsafe h hmem)
        simp only [hh, hst]
        exact ⟨_, rfl⟩
      | none => simp only [hh]; exact ⟨_, rfl⟩
      | bool b => simp only [hh]; exact ⟨_, rfl⟩
      | int n => simp only [hh]; exact ⟨_, rfl⟩
      | str s => simp only [hh]; exact ⟨_, rfl⟩
      | dict kvs2 => simp only [hh]; exact ⟨_, rfl⟩
    · simp [hkv]
  · intro fetch ls
    simp [enrichAll]

/-- C4 witness: a concrete detail dict with a harmless string highlight
title extracts without raising. -/
theorem C4_extract_total_witness :
    ∃ r, extract_ratings_and_badges (PyVal.dict
      [("highlights", PyVal.list
        [PyVal.dict [("title", PyVal.str "Guests loved it")]])]) = Except.ok r :=
  C4_extract_total.2.1
    [("highlights", PyVal.list [PyVal.dict [("title", PyVal.str "Guests loved it")]])] rfl

/-- Names occurring in the fixed leading rawParams entries. -/
theorem mem_baseParams_name (ci co : String) (p : Param) (hp : p ∈ baseParams ci co) :
    p.1 ∈ ["cdnCacheSafe", "channel", "checkin", "checkout", "datePickerType",
           "flexibleTripLengths", "itemsPerGrid", "refinementPaths", "screenSize",
           "searchMode", "tabId", "version"] := by
  simp only [baseParams, List.mem_cons, List.not_mem_nil, or_false] at hp
  rcases hp with h|h|h|h|h|h|h|h|h|h|h|h <;> (rw [h]; dsimp only; decide)

/-- Names occurring in the bounding-box rawParams entries. -/
theorem mem_bboxParams_name (b : BBox) (p : Param) (hp : p ∈ bboxParams b) :
    p.1 ∈ ["neLat", "neLng", "swLat", "swLng", "searchByMap"] := by
  simp only [bboxParams, List.mem_cons, List.not_mem_nil, or_false] at hp
  rcases hp with h|h|h|h|h <;> (rw [h]; dsimp only; decide)

/-- Name of the adults entry. -/
theorem mem_adultsParams_name (f : Filters) (p : Param) (hp : p ∈ adultsParams f) :
    p.1 = "adults" := by
  unfold adultsParams at hp
  cases hf : f.adults with
  | none => rw [hf] at hp; simp at hp
  | some n =>
    rw [hf] at hp
    by_cases hn : (n != 0) = true
    · simp only [hn, if_true, List.mem_cons, List.not_mem_nil, or_false] at hp
      rw [hp]
    · simp [hn] at hp

/-- Name of the room-type entry. -/
theorem mem_roomTypeParams_name (f : Filters) (p : Param) (hp : p ∈ roomTypeParams f) :
    p.1 = "roomTypes" := by
  unfold roomTypeParams at hp
  cases hf : f.room_type with
  | none => rw [hf] at hp; simp at hp
  | some s =>
    rw [hf] at hp
    by_cases hs : (s != "") = true
    · simp only [hs, if_true] at hp
      cases hm : roomTypeMap s with
      | none => rw [hm] at hp; simp at hp
      | some v =>
        rw [hm] at hp
        simp only [List.mem_cons, List.not_mem_nil, or_false] at hp
        rw [hp]
    · simp [hs] at hp

/-- Name of the min-bedrooms entry. -/
theorem mem_minBedroomsParams_name (f : Filters) (p : Param) (hp : p ∈ minBedroomsParams f) :
    p.1 = "minBedrooms" := by
  unfold minBedroomsParams at hp
  cases hf : f.min_bedrooms with
  | none => rw [hf] at hp; simp at hp
  | some n =>
    rw [hf] at hp
    by_cases hn : (n != 0) = true
    · simp only [hn, if_true, List.mem_cons, List.not_mem_nil, or_false] at hp
      rw [hp]
    · simp [hn] at hp

/-- Name of the max-bedrooms entry. -/
theorem mem_maxBedroomsParams_name (f : Filters) (p : Param) (hp : p ∈ maxBedroomsParams f) :
    p.1 = "maxBedrooms" := by
  unfold maxBedroomsParams at hp
  cases hf : f.max_bedrooms with
  | none => rw [hf] at hp; simp at hp
  | some n =>
    rw [hf] at hp
    by_cases hn : (n != 0) = true
    · simp only [hn, if_true, List.mem_cons, List.not_mem_nil, or_false] at hp
      rw [hp]
    · simp [hn] at hp

/-- Names of the guest-favorite entries. -/
theorem mem_guestFavoriteParams_name (f : Filters) (p : Param)
    (hp : p ∈ guestFavoriteParams f) :
    p.1 = "guestFavorite" ∨ p.1 = "selectedFilterOrder" := by
  unfold guestFavoriteParams at hp
  by_cases hg : f.guest_favorite
  · simp only [hg, if_true, List.mem_cons, List.not_mem_nil, or_false] at hp
    rcases hp with h | h <;> simp [h]
  · simp [hg] at hp

/-- Names of the luxe entries. -/
theorem mem_luxeParams_name (f : Filters) (p : Param) (hp : p ∈ luxeParams f) :
    p.1 = "luxe" ∨ p.1 = "selectedFilterOrder" := by
  unfold luxeParams at hp
  by_cases hg : f.luxe
  · simp only [hg, if_true, List.mem_cons, List.not_mem_nil, or_false] at hp
    rcases hp with h | h <;> simp [h]
  · simp [hg] at hp

/-- Name of the cursor entry. -/
theorem mem_cursorParams_name (c : Option String) (p : Param) (hp : p ∈ cursorParams c) :
    p.1 = "cursor" := by
  unfold cursorParams at hp
  cases hc : c with
  | none => rw [hc] at hp; simp at hp
  | some s =>
    rw [hc] at hp
    by_cases hs : (s != "") = true
    · simp only [hs, if_true, List.mem_cons, List.not_mem_nil, or_false] at hp
      rw [hp]
    · simp [hs] at hp

/-- C9 counterexample: providing the free-text query filter leaves the
built GraphQL request body identical to the body built with no filters at
all — build_raw_params never reads the query key, so no corresponding
parameter is emitted for a provided free_text_query. -/
theorem C9_counterexample :
    build_raw_params "2026-01-01" "2026-01-04" (calculate_bounding_box 1 0 0 1)
      { query := some "Downtown Dubai" } Option.none =
    build_raw_params "2026-01-01" "2026-01-04" (calculate_bounding_box 1 0 0 1)
      {} Option.none := rfl

/-- C9 (amended): every provided filter field except the free-text query
is translated into a parameter under its upstream name (with the
room-type enumeration translated, in particular entire_home to Entire
home/apt), and an absent field emits no parameter under that name; the
free-text query field, provided or not, never contributes a parameter. -/
theorem C9_filters_translated :
    ∀ (ci co : String) (b : BBox) (f : Filters) (c : Option String),
      (∀ n : Int, f.adults = some n → n ≠ 0 →
        ("adults", [toString n]) ∈ build_raw_params ci co b f c) ∧
      (f.adults = Option.none →
        ∀ vs, ("adults", vs) ∉ build_raw_params ci co b f c) ∧
      (f.room_type = some "entire_home" →
        ("roomTypes", ["Entire home/apt"]) ∈ build_raw_params ci co b f c) ∧
      (f.room_type = some "private_room" →
        ("roomTypes", ["Private room"]) ∈ build_raw_params ci co b f c) ∧
      (f.room_type = some "shared_room" →
        ("roomTypes", ["Shared room"]) ∈ build_raw_params ci co b f c) ∧
      (f.room_type = Option.none →
        ∀ vs, ("roomTypes", vs) ∉ build_raw_params ci co b f c) ∧
      (∀ n : Int, f.min_bedrooms = some n → n ≠ 0 →
        ("minBedrooms", [toString n]) ∈ build_raw_params ci co b f c) ∧
      (f.min_bedrooms = Option.none →
        ∀ vs, ("minBedrooms", vs) ∉ build_raw_params ci co b f c) ∧
      (∀ n : Int, f.max_bedrooms = some n → n ≠ 0 →
        ("maxBedrooms", [toString n]) ∈ build_raw_params ci co b f c) ∧
      (f.max_bedrooms = Option.none →
        ∀ vs, ("maxBedrooms", vs) ∉ build_raw_params ci co b f c) ∧
      (f.guest_favorite = true →
        ("guestFavorite", ["true"]) ∈ build_raw_params ci co b f c) ∧
      (f.guest_favorite = false →
        ∀ vs, ("guestFavorite", vs) ∉ build_raw_params ci co b f c) ∧
      (f.luxe = true →
        ("luxe", ["true"]) ∈ build_raw_params ci co b f c) ∧
      (f.luxe = false →
        ∀ vs, ("luxe", vs) ∉ build_raw_params ci co b f c) ∧
      (∀ q, build_raw_params ci co b { f with query := q } c =
        build_raw_params ci co b f c) := by
  intro ci co b f c
  refine ⟨?_, ?_, ?_, ?_, ?_, ?_, ?_, ?_, ?_, ?_, ?_, ?_, ?_, ?_, ?_⟩
  · intro n hf hn
    have hseg : adultsParams f = [("adults", [toString n])] := by
      simp [adultsParams, hf, hn]
    simp [build_raw_params, hseg]
  · intro hf vs hmem
    simp only [build_raw_params, List.mem_append, or_assoc] at hmem
    rcases hmem with h|h|h|h|h|h|h|h|h
    · exact absurd (show ("adults":String) ∈ _ from mem_baseParams_name ci co _ h) (by decide)
    · exact absurd (show ("adults":String) ∈ _ from mem_bboxParams_name b _ h) (by decide)
    · unfold adultsParams at h; rw [hf] at h; simp at h
    · exact absurd (show ("adults":String) = "roomTypes" from mem_roomTypeParams_name f _ h)
        (by decide)
    · exact absurd (show ("adults":String) = "minBedrooms" from mem_minBedroomsParams_name f _ h)
        (by decide)
    · exact absurd (show ("adults":String) = "maxBedrooms" from mem_maxBedroomsParams_name f _ h)
        (by decide)
    · rcases mem_guestFavoriteParams_name f _ h with h2 | h2 <;>
        exact absurd (show ("adults":String) = _ from h2) (by decide)
    · rcases mem_luxeParams_name f _ h with h2 | h2 <;>
        exact absurd (show ("adults":String) = _ from h2) (by decide)
    · exact absurd (show ("adults":String) = "cursor" from mem_cursorParams_name c _ h)
        (by decide)
  · intro hf
    have hseg : roomTypeParams f = [("roomTypes", ["Entire home/apt"])] := by
      unfold roomTypeParams; rw [hf]; decide
    simp [build_raw_params, hseg]
  · intro hf
    have hseg : roomTypeParams f = [("roomTypes", ["Private room"])] := by
      unfold roomTypeParams; rw [hf]; decide
    simp [build_raw_params, hseg]
  · intro hf
    have hseg : roomTypeParams f = [("roomTypes", ["Shared room"])] := by
      unfold roomTypeParams; rw [hf]; decide
    simp [build_raw_params, hseg]
  · intro hf vs hmem
    simp only [build_raw_params, List.mem_append, or_assoc] at hmem
    rcases hmem with h|h|h|h|h|h|h|h|h
    · exact absurd (show ("roomTypes":String) ∈ _ from mem_baseParams_name ci co _ h) (by decide)
    · exact absurd (show ("roomTypes":String) ∈ _ from mem_bboxParams_name b _ h) (by decide)
    · exact absurd (show ("roomTypes":String) = "adults" from mem_adultsParams_name f _ h)
        (by decide)
    · unfold roomTypeParams at h; rw [hf] at h; simp at h
    · exact absurd (show ("roomTypes":String) = "minBedrooms" from mem_minBedroomsParams_name f _ h)
        (by decide)
    · exact absurd (show ("roomTypes":String) = "maxBedrooms" from mem_maxBedroomsParams_name f _ h)
        (by decide)
    · rcases mem_guestFavoriteParams_name f _ h with h2 | h2 <;>
        exact absurd (show ("roomTypes":String) = _ from h2) (by decide)
    · rcases mem_luxeParams_name f _ h with h2 | h2 <;>
        exact absurd (show ("roomTypes":String) = _ from h2) (by decide)
    · exact absurd (show ("roomTypes":String) = "cursor" from mem_cursorParams_name c _ h)
        (by decide)
  · intro n hf hn
    have hseg : minBedroomsParams f = [("minBedrooms", [toString n])] := by
      simp [minBedroomsParams, hf, hn]
    simp [build_raw_params, hseg]
  · intro hf vs hmem
    simp only [build_raw_params, List.mem_append, or_assoc] at hmem
    rcases hmem with h|h|h|h|h|h|h|h|h
    · exact absurd (show ("minBedrooms":String) ∈ _ from mem_baseParams_name ci co _ h) (by decide)
    · exact absurd (show ("minBedrooms":String) ∈ _ from mem_bboxParams_name b _ h) (by decide)
    · exact absurd (show ("minBedrooms":String) = "adults" from mem_adultsParams_name f _ h)
        (by decide)
    · exact absurd (show ("minBedrooms":String) = "roomTypes" from mem_roomTypeParams_name f _ h)
        (by decide)
    · unfold minBedroomsParams at h; rw [hf] at h; simp at h
    · exact absurd (show ("minBedrooms":String) = "maxBedrooms" from mem_maxBedroomsParams_name f _ h)
        (by decide)
    · rcases mem_guestFavoriteParams_name f _ h with h2 | h2 <;>
        exact absurd (show ("minBedrooms":String) = _ from h2) (by decide)
    · rcases mem_luxeParams_name f _ h with h2 | h2 <;>
        exact absurd (show ("minBedrooms":String) = _ from h2) (by decide)
    · exact absurd (show ("minBedrooms":String) = "cursor" from mem_cursorParams_name c _ h)
        (by decide)
  · intro n hf hn
    have hseg : maxBedroomsParams f = [("maxBedrooms", [toString n])] := by
      simp [maxBedroomsParams, hf, hn]
    simp [build_raw_params, hseg]
  · intro hf vs hmem
    simp only [build_raw_params, List.mem_append, or_assoc] at hmem
    rcases hmem with h|h|h|h|h|h|h|h|h
    · exact absurd (show ("maxBedrooms":String) ∈ _ from mem_baseParams_name ci co _ h) (by decide)
    · exact absurd (show ("maxBedrooms":String) ∈ _ from mem_bboxParams_name b _ h) (by decide)
    · exact absurd (show ("maxBedrooms":String) = "adults" from mem_adultsParams_name f _ h)
        (by decide)
    · exact absurd (show ("maxBedrooms":String) = "roomTypes" from mem_roomTypeParams_name f _ h)
        (by decide)
    · exact absurd (show ("maxBedrooms":String) = "minBedrooms" from mem_minBedroomsParams_name f _ h)
        (by decide)
    · unfold maxBedroomsParams at h; rw [hf] at h; simp at h
    · rcases mem_guestFavoriteParams_name f _ h with h2 | h2 <;>
        exact absurd (show ("maxBedrooms":String) = _ from h2) (by decide)
    · rcases mem_luxeParams_name f _ h with h2 | h2 <;>
        exact absurd (show ("maxBedrooms":String) = _ from h2) (by decide)
    · exact absurd (show ("maxBedrooms":String) = "cursor" from mem_cursorParams_name c _ h)
        (by decide)
  · intro hg
    have hseg : guestFavoriteParams f =
        [("guestFavorite", ["true"]), ("selectedFilterOrder", ["guest_favorite:true"])] := by
      simp [guestFavoriteParams, hg]
    simp [build_raw_params, hseg]
  · intro hg vs hmem
    simp only [build_raw_params, List.mem_append, or_assoc] at hmem
    rcases hmem with h|h|h|h|h|h|h|h|h
    · exact absurd (show ("guestFavorite":String) ∈ _ from mem_baseParams_name ci co _ h) (by decide)
    · exact absurd (show ("guestFavorite":String) ∈ _ from mem_bboxParams_name b _ h) (by decide)
    · exact absurd (show ("guestFavorite":String) = "adults" from mem_adultsParams_name f _ h)
        (by decide)
    · exact absurd (show ("guestFavorite":String) = "roomTypes" from mem_roomTypeParams_name f _ h)
        (by decide)
    · exact absurd (show ("guestFavorite":String) = "minBedrooms" from mem_minBedroomsParams_name f _ h)
        (by decide)
    · exact absurd (show ("guestFavorite":String) = "maxBedrooms" from mem_maxBedroomsParams_name f _ h)
        (by decide)
    · unfold guestFavoriteParams at h; rw [hg] at h; simp at h
    · rcases mem_luxeParams_name f _ h with h2 | h2 <;>
        exact absurd (show ("guestFavorite":String) = _ from h2) (by decide)
    · exact absurd (show ("guestFavorite":String) = "cursor" from mem_cursorParams_name c _ h)
        (by decide)
  · intro hg
    have hseg : luxeParams f =
        [("luxe", ["true"]), ("selectedFilterOrder", ["luxe:true"])] := by
      simp [luxeParams, hg]
    simp [build_raw_params, hseg]
  · intro hg vs hmem
    simp only [build_raw_params, List.mem_append, or_assoc] at hmem
    rcases hmem with h|h|h|h|h|h|h|h|h
    · exact absurd (show ("luxe":String) ∈ _ from mem_baseParams_name ci co _ h) (by decide)
    · exact absurd (show ("luxe":String) ∈ _ from mem_bboxParams_name b _ h) (by decide)
    · exact absurd (show ("luxe":String) = "adults" from mem_adultsParams_name f _ h)
        (by decide)
    · exact absurd (show ("luxe":String) = "roomTypes" from mem_roomTypeParams_name f _ h)
        (by decide)
    · exact absurd (show ("luxe":String) = "minBedrooms" from mem_minBedroomsParams_name f _ h)
        (by decide)
    · exact absurd (show ("luxe":String) = "maxBedrooms" from mem_maxBedroomsParams_name f _ h)
        (by decide)
    · rcases mem_guestFavoriteParams_name f _ h with h2 | h2 <;>
        exact absurd (show ("luxe":String) = _ from h2) (by decide)
    · unfold luxeParams at h; rw [hg] at h; simp at h
    · exact absurd (show ("luxe":String) = "cursor" from mem_cursorParams_name c _ h)
        (by decide)
  · intro q
    rcases f with ⟨fa, frt, fmin, fmax, fgf, flx, fq⟩
    rfl

/-- C9 witness: at a concrete filter set with every field provided, the
translated parameters are all present in the built body. -/
theorem C9_filters_translated_witness :
    ("adults", [toString (2 : Int)]) ∈ build_raw_params "2026-01-01" "2026-01-04"
      (calculate_bounding_box 1 0 0 1)
      { adults := some 2, room_type := some "entire_home", min_bedrooms := some 1,
        max_bedrooms := some 3, guest_favorite := true, luxe := true,
        query := some "Downtown" } Option.none ∧
    ("roomTypes", ["Entire home/apt"]) ∈ build_raw_params "2026-01-01" "2026-01-04"
      (calculate_bounding_box 1 0 0 1)
      { adults := some 2, room_type := some "entire_home", min_bedrooms := some 1,
        max_bedrooms := some 3, guest_favorite := true, luxe := true,
        query := some "Downtown" } Option.none ∧
    ("minBedrooms", [toString (1 : Int)]) ∈ build_raw_params "2026-01-01" "2026-01-04"
      (calculate_bounding_box 1 0 0 1)
      { adults := some 2, room_type := some "entire_home", min_bedrooms := some 1,
        max_bedrooms := some 3, guest_favorite := true, luxe := true,
        query := some "Downtown" } Option.none ∧
    ("maxBedrooms", [toString (3 : Int)]) ∈ build_raw_params "2026-01-01" "2026-01-04"
      (calculate_bounding_box 1 0 0 1)
      { adults := some 2, room_type := some "entire_home", min_bedrooms := some 1,
        max_bedrooms := some 3, guest_favorite := true, luxe := true,
        query := some "Downtown" } Option.none ∧
    ("guestFavorite", ["true"]) ∈ build_raw_params "2026-01-01" "2026-01-04"
      (calculate_bounding_box 1 0 0 1)
      { adults := some 2, room_type := some "entire_home", min_bedrooms := some 1,
        max_bedrooms := some 3, guest_favorite := true, luxe := true,
        query := some "Downtown" } Option.none ∧
    ("luxe", ["true"]) ∈ build_raw_params "2026-01-01" "2026-01-04"
      (calculate_bounding_box 1 0 0 1)
      { adults := some 2, room_type := some "entire_home", min_bedrooms := some 1,
        max_bedrooms := some 3, guest_favorite := true, luxe := true,
        query := some "Downtown" } Option.none :=
  ⟨(C9_filters_translated _ _ _ _ _).1 2 rfl (by decide),
   (C9_filters_translated _ _ _ _ _).2.2.1 rfl,
   (C9_filters_translated _ _ _ _ _).2.2.2.2.2.2.1 1 rfl (by decide),
   (C9_filters_translated _ _ _ _ _).2.2.2.2.2.2.2.2.1 3 rfl (by decide),
   (C9_filters_translated _ _ _ _ _).2.2.2.2.2.2.2.2.2.2.1 rfl,
   (C9_filters_translated _ _ _ _ _).2.2.2.2.2.2.2.2.2.2.2.2.1 rfl⟩
